import Mathlib

/-!
Shallow embedding of `wikiman/groff/structures.py`, the Groff/tbl document
structure module of the wikiman repository, together with theorems settling
the specification's claims about it.

Flag values follow the Python `enum.Flag` classes: each member is a power of
two, in declaration order, and a flag *value* is the bitwise union of the
members it carries.  A `GroffColumnSpecifiers` value is therefore a natural
number below 128 built from:

  RELATIVE_CENTER = 1,  CENTER = 2,  LEFT_ALIGNED = 4,  RIGHT_ALIGNED = 8,
  NUMBER_ALIGNED = 16,  VERTICAL_SPAN = 32,  HORIZONTAL_SPAN = 64.

The class attribute `_uncombinable = RELATIVE_CENTER | CENTER | LEFT_ALIGNED
| RIGHT_ALIGNED` has value 15.  Because its name is neither sunder nor dunder,
Python's `enum` machinery (3.6 through 3.10, the versions exporting the
`_decompose` helper the source imports) registers `_uncombinable` as a *named
member* of the class with composite value 15; consequently `_decompose` lists
it among a value's components whenever all four of its bits are present.
Note that `NUMBER_ALIGNED` is *not* part of `_uncombinable`.

On those same versions, member names — `_uncombinable` included — are deleted
from the class `__dict__` during enum class creation ("save enum items into
separate mapping so they don't get baked into the new class") and are served
only by the metaclass-level `EnumMeta.__getattr__`.  Instance attribute
lookup never consults the metaclass, so evaluating `self._uncombinable`
inside `__or__`'s filter lambdas raises `AttributeError`; the combinator
therefore fails on every invocation, as modelled below.

Likewise a `GroffColumnOptions` value is a natural number built from
  BOLD = 1, ITALIC = 2, VERTICAL_SPAN_START_BOTTOM = 4,
  VERTICAL_SPAN_START_TOP = 8, UP_HALF_LINE = 16, EXPAND_COLUMN = 32,
  IGNORE_COLUMN = 64,
and options combine through the inherited `Flag.__or__`, a plain bitwise
union of values.
-/

set_option maxRecDepth 100000

/-- Member values visible to `enum._decompose` for `GroffColumnSpecifiers`,
in the descending order produced by its `members.sort(key=value, reverse=True)`
step: the seven canonical powers of two plus the named composite member
`_uncombinable = 15`. -/
def specMembers : List Nat := [64, 32, 16, 15, 8, 4, 2, 1]

/-- First component of `enum._decompose(GroffColumnSpecifiers, v)`: the
members whose bits are all contained in `v`, sorted by value descending; when
more than one member is found and the largest equals `v` itself it is popped
(`members.pop(0)`).  The zero value never arises in the theorems below, since
Python's handling of a zero `Flag` pseudo member depends on interpreter
caching state. -/
def decompose (v : Nat) : List Nat :=
  match specMembers.filter (fun m => m &&& v = m) with
  | [] => []
  | m :: rest => if m = v ∧ rest ≠ [] then rest else m :: rest

/-- The exceptions `GroffColumnSpecifiers.__or__` raises: the
`AttributeError` of the `self._uncombinable` instance lookup inside the
filter lambdas, and the `IndexError` of the `[:1][0]` subscript on an empty
list — the latter being the failure site the specification names
`InvalidSpecifier`. -/
inductive SpecifierError where
  | attributeError
  | indexError
deriving DecidableEq

instance {ε α : Type} [DecidableEq ε] [DecidableEq α] : DecidableEq (Except ε α)
  | Except.error e, Except.error f =>
    if h : e = f then .isTrue (congrArg Except.error h)
    else .isFalse (fun hc => h (Except.error.inj hc))
  | Except.error _, Except.ok _ => .isFalse (fun hc => Except.noConfusion hc)
  | Except.ok _, Except.error _ => .isFalse (fun hc => Except.noConfusion hc)
  | Except.ok a, Except.ok b =>
    if h : a = b then .isTrue (congrArg Except.ok h)
    else .isFalse (fun hc => h (Except.ok.inj hc))

/-- `GroffColumnSpecifiers.__or__` (structures.py lines 41-52), as it
executes on Python 3.6-3.10, the versions whose `enum` exposes the
`_decompose` helper the module imports.  `self_components` and
`other_components` come from `_decompose`.  Line 46 then forces
`list(filter(lambda x: x in self._uncombinable, self_components))[:1][0]`:
because enum member names are absent from the class `__dict__` and reachable
only through the metaclass `__getattr__`, which instance attribute lookup
never consults, the lambda's `self._uncombinable` raises `AttributeError` on
its first call — i.e. whenever `self_components` is nonempty, hence for
every nonzero left operand.  Only when `self_components` is empty (the zero
value, absent a cached zero pseudo member) does the `[:1][0]` subscript on
the empty filter result raise `IndexError` instead.  Either way `__or__`
raises before reaching lines 47-52; its combined-flag success path (return
type `Flag`, modelled as the `ok` branch) is unreachable, and the right
operand only ever feeds the harmless `_decompose` call of line 45. -/
def orSpec (a b : Nat) : Except SpecifierError Nat :=
  let selfComponents := decompose a
  let _otherComponents := decompose b
  match selfComponents with
  | [] => Except.error SpecifierError.indexError
  | _ :: _ => Except.error SpecifierError.attributeError

/-- A value carries exactly one of the five primary alignment flags named by
the specification's glossary (RELATIVE_CENTER, CENTER, LEFT_ALIGNED,
RIGHT_ALIGNED, NUMBER_ALIGNED): its five low bits form a singleton. -/
def carriesOnePrimary (a : Nat) : Prop :=
  a &&& 31 = 1 ∨ a &&& 31 = 2 ∨ a &&& 31 = 4 ∨ a &&& 31 = 8 ∨ a &&& 31 = 16

instance (a : Nat) : Decidable (carriesOnePrimary a) := by
  unfold carriesOnePrimary; infer_instance

/-- `GroffColumnOptions.__or__`, inherited unchanged from `enum.Flag`:
bitwise union of the two values (structures.py lines 55-65). -/
def orOptions (a b : Nat) : Nat := a ||| b

/-- `GroffText` (structures.py lines 84-89). -/
structure GroffText where
  raw_text : String

/-- `GroffText.__str__`: returns `raw_text` unchanged. -/
def GroffText.str (t : GroffText) : String := t.raw_text

/-- `GroffColouredText` (structures.py lines 92-99). -/
structure GroffColouredText where
  colour : String
  raw_text : String

/-- `GroffColouredText.__str__`: the Python literal
`"\m[{self.colour}]{self.raw_text}\m[]"` — `\m` is not a recognised escape,
so the backslashes are literal. -/
def GroffColouredText.str (t : GroffColouredText) : String :=
  "\\m[" ++ t.colour ++ "]" ++ t.raw_text ++ "\\m[]"

/-- A styled inline fragment: one of the two concrete text entities
(the `Union[GroffText, GroffColouredText]` of `_GroffTableContent`). -/
inductive GroffStyledText where
  | text (t : GroffText)
  | coloured (t : GroffColouredText)

/-- `str(...)` on a styled fragment, dispatching to the entity's `__str__`. -/
def styledTextStr : GroffStyledText → String
  | .text t => GroffText.str t
  | .coloured t => GroffColouredText.str t

/-- A character counted as whitespace by `textwrap.dedent`'s regexes
(`[ \t]`). -/
def isWSChar (c : Char) : Bool := c = ' ' || c = '\t'

/-- Split a character list at every newline, keeping (possibly empty) line
bodies, as `str.split('\n')` does. -/
def splitLinesAux : List Char → List (List Char)
  | [] => [[]]
  | c :: cs =>
    let r := splitLinesAux cs
    if c = '\n' then [] :: r
    else
      match r with
      | l :: ls => (c :: l) :: ls
      | [] => [[c]]

/-- Rejoin line bodies with newlines, inverse of `splitLinesAux`. -/
def joinLinesAux : List (List Char) → List Char
  | [] => []
  | [l] => l
  | l :: ls => l ++ '\n' :: joinLinesAux ls

/-- `textwrap.dedent`'s first step: a line consisting solely of whitespace
(`^[ \t]+$`) is replaced by an empty line. -/
def blankLineToEmpty (l : List Char) : List Char :=
  if l ≠ [] ∧ l.all isWSChar then [] else l

/-- Longest common leading run of two character lists; the net effect of
`textwrap.dedent`'s margin-update loop. -/
def commonLead : List Char → List Char → List Char
  | x :: xs, y :: ys => if x = y then x :: commonLead xs ys else []
  | _, _ => []

/-- `textwrap.dedent`: blank out whitespace-only lines, compute the margin as
the longest common leading whitespace of the remaining nonempty lines, then
strip that margin from the start of every line carrying it (`re.sub` with
`(?m)^margin`, applied only when the margin is nonempty). -/
def dedentChars (cs : List Char) : List Char :=
  let lines := (splitLinesAux cs).map blankLineToEmpty
  let indents := (lines.filter (fun l => l ≠ [])).map (fun l => l.takeWhile isWSChar)
  let margin :=
    match indents with
    | [] => ([] : List Char)
    | i :: is => is.foldl commonLead i
  let strip := fun (l : List Char) =>
    if margin ≠ [] ∧ l.take margin.length = margin then l.drop margin.length else l
  joinLinesAux (lines.map strip)

/-- `textwrap.dedent` on strings. -/
def dedent (s : String) : String := String.mk (dedentChars s.data)

/-- The failure the specification names `UnsupportedContent`: in the source,
the `NotImplementedError("Groff paragraph contained item without any string
methods implemented")` raised by `GroffParagraph.__str__`. -/
inductive ParagraphError where
  | unsupportedContent
deriving DecidableEq

/-- An item of a `GroffParagraph`'s list content: either an object whose
stringification yields text, or one exposing no usable string form (whose
stringification raises `AttributeError` inside the render loop). -/
inductive GroffParagraphItem where
  | renderable (text : String)
  | unrenderable

/-- `str(item)` for a paragraph item, `none` when the item has no string
form. -/
def itemStr : GroffParagraphItem → Option String
  | .renderable s => some s
  | .unrenderable => none

/-- The `content` argument of `GroffParagraph`: a plain string or a list of
entities (structures.py line 203). -/
inductive GroffParagraphContent where
  | ofString (s : String)
  | ofList (items : List GroffParagraphItem)

/-- The accumulation loop of `GroffParagraph.__str__`'s list branch
(structures.py lines 213-221): `rval` grows by `str(item)` per item; an item
without a string form raises, which the handler converts to the
`NotImplementedError`.  The loop is followed by *no* return statement, so a
fully successful traversal returns Python's `None`, modelled as `ok none`. -/
def paragraphStrGo : List GroffParagraphItem → String → Except ParagraphError (Option String)
  | [], _ => Except.ok none
  | item :: rest, rval =>
    match itemStr item with
    | some s => paragraphStrGo rest (rval ++ s)
    | none => Except.error ParagraphError.unsupportedContent

/-- `GroffParagraph.__str__` (structures.py lines 207-221).  For string
content the dedented `.LP` template (12-space indentation in the source) is
returned; for list content the accumulation loop runs. -/
def GroffParagraph.str : GroffParagraphContent → Except ParagraphError (Option String)
  | .ofString s =>
    Except.ok (some (dedent (("            .LP\n            ") ++ s ++ ("\n            "))))
  | .ofList items => paragraphStrGo items ("")

/-- `HeaderLevels` (structures.py lines 15-23). -/
inductive HeaderLevels where
  | HEADER_LARGE
  | HEADER_MEDIUM
  | HEADER_SMALL
  | HEADER_CUSTOM
  | NUMBERED_HEADER

/-- The optional `header_options` dict: `size` (an int) and `section`
(a string); `section` is a Lean keyword, so the field is named `sect`. -/
structure HeaderOptions where
  size : Option Nat
  sect : Option String

/-- `header_options.get("size") or "\b"`, then formatted into the template:
a missing key gives `None`, and both `None` and the falsy `0` fall back to
the backspace escape `"\b"` (`\x08`). -/
def sizeOrFallback : Option Nat → String
  | some n => if n = 0 then "\x08" else toString n
  | none => "\x08"

/-- `header_options.get("section") or "\b"`: a missing key and the falsy
empty string both fall back to `"\b"` (`\x08`). -/
def sectOrFallback : Option String → String
  | some s => if s = "" then "\x08" else s
  | none => "\x08"

/-- The `_header_decl` computed by `GroffHeader.__init__` (structures.py
lines 244-255): the level's template with `size`/`section` substituted for
custom and numbered levels, the fixed template text otherwise.  A `None`
options argument is replaced by the empty dict. -/
def headerDecl (header_level : HeaderLevels) (header_options : Option HeaderOptions) : String :=
  let o := header_options.getD ⟨none, none⟩
  match header_level with
  | .HEADER_LARGE => ".SH 1"
  | .HEADER_MEDIUM => ".SH 2"
  | .HEADER_SMALL => ".SH 3"
  | .HEADER_CUSTOM => ".SH " ++ sizeOrFallback o.size
  | .NUMBERED_HEADER => ".NH " ++ sizeOrFallback o.size ++ " " ++ sectOrFallback o.sect

/-- `GroffHeader.__str__` (structures.py lines 257-261): the dedented
two-line template (8-space indentation in the source) holding `_header_decl`
and the raw text. -/
def GroffHeader.str (header_text : String) (header_level : HeaderLevels)
    (header_options : Option HeaderOptions) : String :=
  dedent (("        ") ++ headerDecl header_level header_options ++ ("\n        ") ++
    header_text ++ ("\n        "))

/-- The table-level options dict built by `GroffColumnSection.__init__`
(structures.py lines 128-137). -/
structure SectionOptions where
  center : Bool
  expand : Bool
  box : Bool
  allbox : Bool
  doublebox : Bool
  tab : String
  linesize : Option Nat
  delim : Option String

/-- The default options dict of `GroffColumnSection.__init__`. -/
def defaultSectionOptions : SectionOptions :=
  ⟨false, false, false, false, false, "^", none, none⟩

/-- `TableCell` of the specification's data model: ordered styled-text
fragments plus the cell's own ColumnSpecifier/ColumnOption flag values. -/
structure GroffTableCell where
  content : List GroffStyledText
  specifier : Nat
  options : Nat

/-- `GroffTableRow`: an ordered sequence of cells. -/
structure GroffTableRow where
  cells : List GroffTableCell

/-- `GroffColumnSection`: table-level options, the per-column
(specifier, option) layout, and the rows of the block. -/
structure GroffColumnSection where
  options : SectionOptions
  columns : List (Nat × Nat)
  rows : List GroffTableRow

/-- `GroffColumnSection.__init__` (structures.py lines 123-137): a `None`
options argument selects the default dict, any other value is stored
unchanged; the section starts with no columns and no rows. -/
def mkGroffColumnSection (options : Option SectionOptions) : GroffColumnSection :=
  ⟨options.getD defaultSectionOptions, [], []⟩

/-- The structural failure of section rendering, the specification's
`StructuralMismatch`. -/
inductive RenderError where
  | structuralMismatch
deriving DecidableEq

/-- Join strings with a separator (no trailing separator). -/
def joinWith (sep : String) : List String → String
  | [] => ""
  | [x] => x
  | x :: xs => x ++ sep ++ joinWith sep xs

/-- Modelled from the spec: the tbl global-options preamble line of
`GroffColumnSection.render` (section 4.5(a)), whose body is an unimplemented
stub in the source.  A keyword is included only when its flag or value is
set, `allbox`/`doublebox` take precedence over a plain `box`, and `tab` is
always emitted. -/
def preambleLine (o : SectionOptions) : String :=
  joinWith (" ")
    ((if o.center then ["center"] else []) ++
     (if o.expand then ["expand"] else []) ++
     (if o.allbox then ["allbox"]
      else if o.doublebox then ["doublebox"]
      else if o.box then ["box"] else []) ++
     ["tab(" ++ o.tab ++ ")"] ++
     (match o.linesize with | some n => ["linesize(" ++ toString n ++ ")"] | none => []) ++
     (match o.delim with | some d => ["delim(" ++ d ++ ")"] | none => [])) ++ ";"

/-- Modelled from the spec: the one-letter tbl code of each specifier flag
carried by a column's ColumnSpecifier value (section 6: the `c`,`r`,`l`,`n`,
`^`,`s` families), for the specifier line of the stubbed render. -/
def specifierCode (s : Nat) : String :=
  (if s &&& 1 = 1 then "a" else "") ++ (if s &&& 2 = 2 then "c" else "") ++
  (if s &&& 4 = 4 then "l" else "") ++ (if s &&& 8 = 8 then "r" else "") ++
  (if s &&& 16 = 16 then "n" else "") ++ (if s &&& 32 = 32 then "^" else "") ++
  (if s &&& 64 = 64 then "s" else "")

/-- Modelled from the spec: the tbl code letters of a column's ColumnOption
flags, appended to its specifier code on the specifier line of the stubbed
render. -/
def optionCode (o : Nat) : String :=
  (if o &&& 1 = 1 then "b" else "") ++ (if o &&& 2 = 2 then "i" else "") ++
  (if o &&& 4 = 4 then "d" else "") ++ (if o &&& 8 = 8 then "t" else "") ++
  (if o &&& 16 = 16 then "u" else "") ++ (if o &&& 32 = 32 then "e" else "") ++
  (if o &&& 64 = 64 then "x" else "")

/-- Modelled from the spec: the per-column specifier line of
`GroffColumnSection.render` (section 4.5(b)), one code group per column,
terminated with the required period. -/
def specifierLine (cols : List (Nat × Nat)) : String :=
  joinWith (" ") (cols.map (fun c => specifierCode c.1 ++ optionCode c.2)) ++ "."

/-- A cell's rendered text: its styled fragments concatenated. -/
def cellStr (c : GroffTableCell) : String :=
  c.content.foldl (fun acc t => acc ++ styledTextStr t) ("")

/-- Modelled from the spec: one data line per row, the rendered cell texts
joined by the section's configured separator (section 4.5(c)). -/
def rowLine (tab : String) (r : GroffTableRow) : String :=
  joinWith tab (r.cells.map cellStr)

/-- Modelled from the spec: `GroffColumnSection.render` / `__str__`
(section 4.5), whose body is an unimplemented stub in the source
(structures.py lines 139-140).  It fails with `StructuralMismatch` when any
row's cell count differs from the declared column count — the single hard
validation point — and otherwise emits the preamble line, the specifier
line, and the data rows. -/
def sectionRender (sec : GroffColumnSection) : Except RenderError String :=
  if sec.rows.any (fun r => r.cells.length != sec.columns.length) then
    Except.error RenderError.structuralMismatch
  else
    Except.ok (preambleLine sec.options ++ "\n" ++ specifierLine sec.columns ++ "\n" ++
      joinWith ("\n") (sec.rows.map (rowLine sec.options.tab)) ++ "\n")

/-- Modelled from the spec: `GroffColumnSection.add_row` (section 4.5), whose
body is an unimplemented stub in the source.  Mutation is permissive — the
row is always appended, with no cell-count failure; an empty column layout is
seeded from the first row's cell-level flag pairs. -/
def addRow (sec : GroffColumnSection) (row : GroffTableRow) : GroffColumnSection :=
  ⟨sec.options,
   if sec.columns.isEmpty then row.cells.map (fun c => (c.specifier, c.options)) else sec.columns,
   sec.rows ++ [row]⟩

/-- `GroffTable`: an ordered sequence of column sections. -/
structure GroffTable where
  sections : List GroffColumnSection

/-- Render every section in order, propagating the first failure. -/
def tableRenderSections : List GroffColumnSection → Except RenderError (List String)
  | [] => Except.ok []
  | s :: ss =>
    match sectionRender s with
    | Except.error e => Except.error e
    | Except.ok r =>
      match tableRenderSections ss with
      | Except.error e => Except.error e
      | Except.ok rs => Except.ok (r :: rs)

/-- Modelled from the spec: `GroffTable.render` / `__str__` (section 4.6),
whose body is an unimplemented stub in the source (structures.py lines
170-171).  The rendered sections are wrapped in the `.TS`/`.TE` markers with
`.T&` continuation markers between sections; an empty table renders to the
empty string rather than an error. -/
def tableRender (t : GroffTable) : Except RenderError String :=
  match tableRenderSections t.sections with
  | Except.error e => Except.error e
  | Except.ok [] => Except.ok ("")
  | Except.ok (r :: rs) =>
    Except.ok (".TS\n" ++ r ++ rs.foldl (fun acc s => acc ++ ".T&\n" ++ s) ("") ++ ".TE\n")

/-- Claim C4: `GroffColumnOptions` combination is the plain union of flag
sets, hence commutative, associative and idempotent. -/
theorem orOptions_union_comm_assoc_idem :
    ∀ x y z : Nat, orOptions x y = orOptions y x ∧
      orOptions (orOptions x y) z = orOptions x (orOptions y z) ∧
      orOptions x x = x :=
  fun x y z => ⟨Nat.lor_comm x y, Nat.lor_assoc x y z, by simp [orOptions]⟩

/-- Claim C5: rendering a column section fails with `StructuralMismatch`
exactly when some row's cell count differs from the declared column count,
and the earlier mutation call performs no such check — `add_row` appends the
row unconditionally. -/
theorem sectionRender_mismatch_iff (sec : GroffColumnSection) :
    (sectionRender sec = Except.error RenderError.structuralMismatch ↔
      ∃ r ∈ sec.rows, r.cells.length ≠ sec.columns.length) ∧
    ∀ row, (addRow sec row).rows = sec.rows ++ [row] := by
  constructor
  · unfold sectionRender
    split
    · rename_i h
      simp only [List.any_eq_true, bne_iff_ne] at h
      exact iff_of_true rfl h
    · rename_i h
      simp only [List.any_eq_true, bne_iff_ne] at h
      exact iff_of_false (fun hc => Except.noConfusion hc) h
  · intro row
    rfl

/-- Claim C6: styled-text rendering is pure and total — a coloured text with
colour `c` and raw text `t` renders to exactly `\m[c]t\m[]` (so colour `red`
with text `X` gives `\m[red]X\m[]`), and a plain text renders to its raw
text verbatim. -/
theorem styledText_render :
    (∀ c t, GroffColouredText.str ⟨c, t⟩ = "\\m[" ++ c ++ "]" ++ t ++ "\\m[]") ∧
    GroffColouredText.str ⟨"red", "X"⟩ = "\\m[red]X\\m[]" ∧
    (∀ t, GroffText.str ⟨t⟩ = t) := by
  refine ⟨fun c t => rfl, by decide, fun t => rfl⟩

/-- Claim C7: rendering an empty table (no sections) yields the empty string
and does not fail. -/
theorem tableRender_empty : tableRender ⟨[]⟩ = Except.ok ("") := rfl

/-- The accumulation loop of `GroffParagraph.__str__` fails as soon as the
content holds an item without a string form, whatever has been accumulated
so far. -/
theorem paragraphStrGo_unrenderable :
    ∀ (items : List GroffParagraphItem) (rval : String),
      (∃ i ∈ items, itemStr i = none) →
      paragraphStrGo items rval = Except.error ParagraphError.unsupportedContent := by
  intro items
  induction items with
  | nil =>
    intro rval h
    simp at h
  | cons head tail ih =>
    intro rval h
    cases hh : itemStr head with
    | none => simp [paragraphStrGo, hh]
    | some s =>
      obtain ⟨i, hi, hnone⟩ := h
      rcases List.mem_cons.mp hi with rfl | hmem
      · rw [hh] at hnone
        exact Option.noConfusion hnone
      · simpa [paragraphStrGo, hh] using ih (rval ++ s) ⟨i, hmem, hnone⟩

/-- Claim C8: when a paragraph's list content holds an item exposing no
renderable string form, rendering the paragraph fails with the
`UnsupportedContent` error (the source's `NotImplementedError`), raised by
the render call itself and not recovered. -/
theorem groffParagraph_unsupported_content
    (items : List GroffParagraphItem)
    (h : ∃ i ∈ items, itemStr i = none) :
    GroffParagraph.str (.ofList items) = Except.error ParagraphError.unsupportedContent :=
  paragraphStrGo_unrenderable items ("") h

/-- Witness for claim C8 at a one-item content whose item has no string
form. -/
theorem groffParagraph_unsupported_content_witness :
    GroffParagraph.str (.ofList [GroffParagraphItem.unrenderable]) =
      Except.error ParagraphError.unsupportedContent :=
  groffParagraph_unsupported_content [GroffParagraphItem.unrenderable]
    ⟨GroffParagraphItem.unrenderable, List.mem_singleton_self _, rfl⟩

/-- Claim C9: a header with text `Intro`, level NUMBERED_HEADER and options
size 2, section `1.1` renders to the two lines `.NH 2 1.1` and `Intro`; for
the custom and numbered levels each placeholder independently falls back to
the backspace escape `"\b"` when its option is unset. -/
theorem groffHeader_numbered_render :
    GroffHeader.str ("Intro") .NUMBERED_HEADER (some ⟨some 2, some ("1.1")⟩) =
      ".NH 2 1.1\nIntro\n" ∧
    (∀ s, headerDecl .HEADER_CUSTOM (some ⟨none, s⟩) = ".SH \x08") ∧
    headerDecl .NUMBERED_HEADER none = ".NH \x08 \x08" ∧
    (∀ n : Nat, n ≠ 0 → headerDecl .NUMBERED_HEADER (some ⟨some n, none⟩) =
      ".NH " ++ toString n ++ " " ++ "\x08") ∧
    (∀ s : String, s ≠ "" → headerDecl .NUMBERED_HEADER (some ⟨none, some s⟩) =
      ".NH " ++ "\x08" ++ " " ++ s) := by
  refine ⟨by decide, fun s => rfl, rfl, fun n hn => ?_, fun s hs => ?_⟩
  · simp [headerDecl, sizeOrFallback, sectOrFallback, hn]
  · simp [headerDecl, sizeOrFallback, sectOrFallback, hs]

/-- Witness for claim C9's fallback clauses at size 3 and section `2.4`. -/
theorem groffHeader_numbered_render_witness :
    headerDecl .NUMBERED_HEADER (some ⟨some 3, none⟩) = ".NH " ++ toString 3 ++ " " ++ "\x08" ∧
    headerDecl .NUMBERED_HEADER (some ⟨none, some ("2.4")⟩) = ".NH " ++ "\x08" ++ " " ++ "2.4" :=
  ⟨groffHeader_numbered_render.2.2.2.1 3 (by decide),
   groffHeader_numbered_render.2.2.2.2 ("2.4") (by decide)⟩

/-- Claim C10: constructing a column section without options installs the
fixed default configuration (all presentation flags off, tab `^`, no
linesize, no delim); a supplied options value is stored unchanged. -/
theorem groffColumnSection_init_options :
    (mkGroffColumnSection none).options =
      ⟨false, false, false, false, false, "^", none, none⟩ ∧
    ∀ o, (mkGroffColumnSection (some o)).options = o :=
  ⟨rfl, fun _ => rfl⟩
